import Mathlib

/-
Verification development for the work-coordinator extension.

The coordinator lives in src/background.js: it keeps the work registry
(nextPatientId scan pointer, per-patient locks, completed set, active thread
table, global stop flag) in a shared store and serves the message handlers
requestWork, completeWork, patientNotFound / patientNoCharts, broadcastStop,
startThreads and threadComplete.  The worker content script
(src/unnamed/part_001, from line 324) drives the per-patient pipeline with
interruptible sleeps, a retry ladder around the two PDF phases, and a
rate-limit detector.

Everything below is a shallow embedding of that source: each definition is a
direct transcription of the cited JavaScript, with storage maps modelled as
functions into Option and Date.now() passed in explicitly.
-/

namespace JaneExt

/-! ## Coordinator data model (src/background.js) -/

/-- A `patientLocks[patientId]` entry, created by the requestWork handler
(src/background.js lines 561-565): `{ threadId, timestamp: Date.now(),
status: 'locked' }`. -/
structure LockEntry where
  threadId : String
  timestamp : Nat
  status : String
deriving DecidableEq, Repr

/-- A `completedPatients[patientId]` entry.  completeWork writes
`{ patientName, filename, timestamp, threadId }` (lines 673-679); the resume
seed in startThreads writes `{ filename, endTime }` (lines 410-421).  Fields
absent in one of the two shapes are Options. -/
structure CompletedEntry where
  patientName : Option String
  filename : Option String
  timestamp : Option Nat
  threadId : Option String
  endTime : Option String
deriving DecidableEq, Repr

/-- An `activeThreads[threadId]` entry: `{ tabId, status, patientId }`
(src/background.js lines 470-474 and 571-576). -/
structure ThreadInfo where
  tabId : Option Nat
  status : String
  patientId : Option Nat
deriving DecidableEq, Repr

/-- The `workRegistry` object written by startThreads (lines 429-435). -/
structure WorkRegistry where
  clinicName : String
  startingIndex : Nat
  nextPatientId : Nat
  maxId : Option Nat
  globalStop : Bool
deriving DecidableEq, Repr

/-- The coordinator-facing portion of chrome.storage.local, as read and
written by the background handlers.  `pendingAutoClear` models the 1.5 s
setTimeout that broadcastStop schedules (lines 163-171) to flip
`workRegistry.globalStop` back to false. -/
@[ext]
structure RegistryState where
  workRegistry : WorkRegistry
  patientLocks : Nat → Option LockEntry
  completedPatients : Nat → Option CompletedEntry
  activeThreads : String → Option ThreadInfo
  stopRequested : Bool
  globalCooldownUntil : Nat
  pendingAutoClear : Bool

/-- Point update of a Nat-keyed storage map. -/
def updN {β : Type} (m : Nat → Option β) (k : Nat) (v : Option β) : Nat → Option β :=
  fun j => if j = k then v else m j

/-- Point update of a String-keyed storage map. -/
def updS {β : Type} (m : String → Option β) (k : String) (v : Option β) : String → Option β :=
  fun j => if j = k then v else m j

/-! ## requestWork (src/background.js lines 506-593) -/

/-- Truthiness of the loop guard `Number.isInteger(maxId) && probeId > maxId`
(line 540). -/
def exceedsMax (maxId : Option Nat) (probeId : Nat) : Bool :=
  match maxId with
  | some m => decide (probeId > m)
  | none => false

/-- `patientLocks[probeId] && patientLocks[probeId].threadId !== threadId`
(line 545): the probe is locked by a different worker. -/
def lockedByOther (locks : Nat → Option LockEntry) (threadId : String) (id : Nat) : Bool :=
  match locks id with
  | some l => l.threadId != threadId
  | none => false

/-- `!isCompleted && !isLocked` (line 547): the probe can be assigned to
`threadId`. -/
def eligibleFor (completed : Nat → Option CompletedEntry) (locks : Nat → Option LockEntry)
    (threadId : String) (id : Nat) : Bool :=
  (completed id).isNone && !(lockedByOther locks threadId id)

/-- The probe loop of requestWork (lines 536-552): starting at `probeId`, with
`fuel` remaining iterations of the `attempts < 5000` loop, return the first
eligible id, stopping with none when `maxId` is exceeded or fuel runs out. -/
def scanForWork (completed : Nat → Option CompletedEntry) (locks : Nat → Option LockEntry)
    (threadId : String) (maxId : Option Nat) : Nat → Nat → Option Nat
  | _, 0 => none
  | probeId, fuel + 1 =>
    if exceedsMax maxId probeId then none
    else if eligibleFor completed locks threadId probeId then some probeId
    else scanForWork completed locks threadId maxId (probeId + 1) fuel

/-- The response sent by requestWork: `{ status: 'assigned', patientId,
clinicName }` or `{ status: 'done' }`. -/
inductive WorkResponse
  | assigned (patientId : Nat) (clinicName : String)
  | done
deriving DecidableEq, Repr

/-- JavaScript truthiness of `!activeThreads[threadId].tabId` (line 572). -/
def tabIdFalsy : Option Nat → Bool
  | none => true
  | some n => n == 0

/-- The requestWork handler (lines 506-593), serialized: returns the response
and the updated registry.  `originTabId` models `sender.tab.id` and `now`
models `Date.now()`. -/
def requestWork (s : RegistryState) (threadId : String) (originTabId : Option Nat)
    (now : Nat) : WorkResponse × RegistryState :=
  if s.workRegistry.globalStop then (.done, s)
  else
    match scanForWork s.completedPatients s.patientLocks threadId s.workRegistry.maxId
        s.workRegistry.nextPatientId 5000 with
    | none => (.done, s)
    | some assignedId =>
      let locks2 := updN s.patientLocks assignedId (some ⟨threadId, now, "locked"⟩)
      let wr2 := { s.workRegistry with nextPatientId := assignedId + 1 }
      let t0 := (s.activeThreads threadId).getD ⟨none, "", none⟩
      let t1 := if tabIdFalsy t0.tabId && originTabId.isSome
                then { t0 with tabId := originTabId } else t0
      let t2 := { t1 with status := "working", patientId := some assignedId }
      (.assigned assignedId s.workRegistry.clinicName,
       { s with patientLocks := locks2, workRegistry := wr2,
                activeThreads := updS s.activeThreads threadId (some t2) })

/-! ## completeWork and the release handlers (src/background.js) -/

/-- The guarded unlock shared by completeWork (lines 667-670) and
patientNotFound / patientNoCharts (lines 631-634):
`if (patientLocks[patientId] && patientLocks[patientId].threadId === threadId)
delete patientLocks[patientId]`. -/
def lockRelease (locks : Nat → Option LockEntry) (threadId : String) (patientId : Nat) :
    Nat → Option LockEntry :=
  match locks patientId with
  | some l => if l.threadId = threadId then updN locks patientId none else locks
  | none => locks

/-- The thread-idle update shared by completeWork (lines 682-686) and the
release handlers (lines 636-640): when `activeThreads[threadId]` exists, set
its status to idle and its patientId to null. -/
def threadSetIdle (threads : String → Option ThreadInfo) (threadId : String) :
    String → Option ThreadInfo :=
  match threads threadId with
  | some t => updS threads threadId (some { t with status := "idle", patientId := none })
  | none => threads

/-- The completeWork handler (lines 654-696): release the lock iff held by
`threadId`, insert into the completed set iff `success`, mark the thread
idle.  `now` models `Date.now()`. -/
def completeWork (s : RegistryState) (threadId : String) (patientId : Nat)
    (patientName zipFilename : String) (success : Bool) (now : Nat) : RegistryState :=
  { s with
    patientLocks := lockRelease s.patientLocks threadId patientId,
    completedPatients :=
      if success then
        updN s.completedPatients patientId
          (some ⟨some patientName, some zipFilename, some now, some threadId, none⟩)
      else s.completedPatients,
    activeThreads := threadSetIdle s.activeThreads threadId }

/-- The patientNotFound / patientNoCharts handler (lines 623-649): release the
lock iff held by `threadId`, mark the thread idle, never touch the completed
set. -/
def releasePatient (s : RegistryState) (threadId : String) (patientId : Nat) :
    RegistryState :=
  { s with
    patientLocks := lockRelease s.patientLocks threadId patientId,
    activeThreads := threadSetIdle s.activeThreads threadId }

/-! ## broadcastStop, its auto-clear timer, cooldown, reset -/

/-- The broadcastStop handler (lines 129-179): clears the thread table, sets
`stopRequested` and `workRegistry.globalStop`, and schedules the 1.5 s
auto-clear timer for `globalStop` (lines 163-171).  Locks are not touched. -/
def broadcastStop (s : RegistryState) : RegistryState :=
  { s with activeThreads := fun _ => none,
           stopRequested := true,
           workRegistry := { s.workRegistry with globalStop := true },
           pendingAutoClear := true }

/-- The timer scheduled by broadcastStop at lines 163-171: 1.5 s later, if
`workRegistry.globalStop` is still set, write it back to false.  Fires at
most once per broadcastStop. -/
def autoClearStopTimer (s : RegistryState) : RegistryState :=
  if s.pendingAutoClear then
    { s with pendingAutoClear := false,
             workRegistry :=
               if s.workRegistry.globalStop
               then { s.workRegistry with globalStop := false }
               else s.workRegistry }
  else s

/-- The tail of the globalCooldownAndRecover handler after its wait (line
239): `{ stopRequested: false, globalCooldownUntil: 0 }`. -/
def cooldownClear (s : RegistryState) : RegistryState :=
  { s with stopRequested := false, globalCooldownUntil := 0 }

/-- The `(Number.isInteger(maxId) && maxId > 0) ? maxId : null` guard of
startThreads (line 433). -/
def sanitizeMaxId : Option Nat → Option Nat
  | some m => if m > 0 then some m else none
  | none => none

/-- Thread table produced by the startThreads creation loop (lines 463-491):
each created worker starts as `{ tabId, status: 'initializing',
patientId: null }`. -/
def initialThreads : List (String × Nat) → String → Option ThreadInfo
  | [], _ => none
  | (tid, tab) :: rest, j =>
    if j = tid then some ⟨some tab, "initializing", none⟩ else initialThreads rest j

/-- The registry reset performed by startThreads (lines 322-439): clears all
locks, seeds the completed set from previously produced output, resets the
scan pointer to `startingIndex`, clears the stop flags, and registers the
freshly created workers. -/
def startThreadsReset (s : RegistryState) (clinicName : String) (startingIndex : Nat)
    (maxId : Option Nat) (seed : Nat → Option CompletedEntry)
    (threads : List (String × Nat)) : RegistryState :=
  { workRegistry := { clinicName := clinicName, startingIndex := startingIndex,
                      nextPatientId := startingIndex, maxId := sanitizeMaxId maxId,
                      globalStop := false },
    patientLocks := fun _ => none,
    completedPatients := seed,
    activeThreads := initialThreads threads,
    stopRequested := false,
    globalCooldownUntil := s.globalCooldownUntil,
    pendingAutoClear := s.pendingAutoClear }

/-- The threadComplete handler (lines 702-736): remove the thread from the
table; nothing else in the registry changes. -/
def threadComplete (s : RegistryState) (threadId : String) : RegistryState :=
  { s with activeThreads := updS s.activeThreads threadId none }

/-! ## The serialized coordinator as a step system -/

/-- One serialized coordinator message, covering every background.js handler
that mutates the registry. -/
inductive CoordOp
  | requestWorkOp (threadId : String) (originTabId : Option Nat) (now : Nat)
  | completeWorkOp (threadId : String) (patientId : Nat)
      (patientName zipFilename : String) (success : Bool) (now : Nat)
  | releasePatientOp (threadId : String) (patientId : Nat)
  | broadcastStopOp
  | autoClearStopOp
  | cooldownClearOp
  | startThreadsResetOp (clinicName : String) (startingIndex : Nat)
      (maxId : Option Nat) (seed : Nat → Option CompletedEntry)
      (threads : List (String × Nat))
  | threadCompleteOp (threadId : String)

/-- Effect of one serialized coordinator message on the registry. -/
def applyOp (s : RegistryState) : CoordOp → RegistryState
  | .requestWorkOp t tab now => (requestWork s t tab now).2
  | .completeWorkOp t pid pn zf succ now => completeWork s t pid pn zf succ now
  | .releasePatientOp t pid => releasePatient s t pid
  | .broadcastStopOp => broadcastStop s
  | .autoClearStopOp => autoClearStopTimer s
  | .cooldownClearOp => cooldownClear s
  | .startThreadsResetOp cn si mi seed ths => startThreadsReset s cn si mi seed ths
  | .threadCompleteOp t => threadComplete s t

/-- A sequence of requestWork calls (for the pointer-monotonicity claim). -/
def runRequests (s : RegistryState) : List (String × Option Nat × Nat) → RegistryState
  | [] => s
  | (t, tab, now) :: rest => runRequests (requestWork s t tab now).2 rest

/-- The operations that write `workRegistry.globalStop := false`: only the
auto-clear timer scheduled by broadcastStop itself and the startThreads
reset.  No handler offers an explicit resume that clears this flag. -/
def clearsGlobalStop : CoordOp → Bool
  | .autoClearStopOp => true
  | .startThreadsResetOp _ _ _ _ _ => true
  | _ => false

/-! ## Map update lemmas -/

theorem updN_same {β : Type} (m : Nat → Option β) (k : Nat) (v : Option β) :
    updN m k v k = v := by
  simp [updN]

theorem updN_other {β : Type} (m : Nat → Option β) (k j : Nat) (v : Option β)
    (h : j ≠ k) : updN m k v j = m j := by
  simp [updN, h]

theorem updN_absorb {β : Type} (m : Nat → Option β) (k : Nat) (v w : Option β) :
    updN (updN m k v) k w = updN m k w := by
  funext j
  by_cases h : j = k <;> simp [updN, h]

theorem updS_same {β : Type} (m : String → Option β) (k : String) (v : Option β) :
    updS m k v k = v := by
  simp [updS]

theorem updS_absorb {β : Type} (m : String → Option β) (k : String) (v w : Option β) :
    updS (updS m k v) k w = updS m k w := by
  funext j
  by_cases h : j = k <;> simp [updS, h]

/-! ## Lock release and thread idle lemmas -/

theorem lockRelease_idem (locks : Nat → Option LockEntry) (threadId : String)
    (patientId : Nat) :
    lockRelease (lockRelease locks threadId patientId) threadId patientId =
      lockRelease locks threadId patientId := by
  unfold lockRelease
  cases hp : locks patientId with
  | none => simp [hp]
  | some l =>
    by_cases ht : l.threadId = threadId
    · simp [hp, ht, updN_same]
    · simp [hp, ht]

theorem threadSetIdle_idem (threads : String → Option ThreadInfo) (threadId : String) :
    threadSetIdle (threadSetIdle threads threadId) threadId =
      threadSetIdle threads threadId := by
  unfold threadSetIdle
  cases hp : threads threadId with
  | none => simp [hp]
  | some t => simp [hp, updS_same, updS_absorb]

theorem lockRelease_none_inv (locks : Nat → Option LockEntry) (threadId : String)
    (patientId q : Nat) (l : LockEntry) (hq : locks q = some l)
    (h : lockRelease locks threadId patientId q = none) :
    q = patientId ∧ l.threadId = threadId := by
  cases hp : locks patientId with
  | none => simp [lockRelease, hp, hq] at h
  | some l2 =>
    by_cases ht : l2.threadId = threadId
    · simp [lockRelease, hp, ht] at h
      by_cases hqp : q = patientId
      · subst hqp
        rw [hp] at hq
        cases hq
        exact ⟨rfl, ht⟩
      · rw [updN_other _ _ _ _ hqp, hq] at h
        cases h
    · simp [lockRelease, hp, ht, hq] at h

/-! ## Characterization of the probe loop -/

theorem scanForWork_some_spec (completed : Nat → Option CompletedEntry)
    (locks : Nat → Option LockEntry) (threadId : String) (maxId : Option Nat) :
    ∀ fuel probeId id, scanForWork completed locks threadId maxId probeId fuel = some id →
      probeId ≤ id ∧ id < probeId + fuel ∧
      eligibleFor completed locks threadId id = true ∧
      (∀ j, probeId ≤ j → j < id → eligibleFor completed locks threadId j = false) ∧
      (∀ m, maxId = some m → id ≤ m) := by
  intro fuel
  induction fuel with
  | zero => intro probeId id h; simp [scanForWork] at h
  | succ f ih =>
    intro probeId id h
    rw [scanForWork] at h
    by_cases hmax : exceedsMax maxId probeId
    · simp [hmax] at h
    · by_cases helig : eligibleFor completed locks threadId probeId
      · simp [hmax, helig] at h
        subst h
        refine ⟨le_refl _, by omega, helig, ?_, ?_⟩
        · intro j h1 h2; omega
        · intro m hm
          simp [exceedsMax, hm] at hmax
          omega
      · simp [hmax, helig] at h
        obtain ⟨h1, h2, h3, h4, h5⟩ := ih (probeId + 1) id h
        refine ⟨by omega, by omega, h3, ?_, h5⟩
        intro j hj1 hj2
        rcases Nat.eq_or_lt_of_le hj1 with heq | hlt
        · subst heq; simpa using helig
        · exact h4 j hlt hj2

theorem scanForWork_none_spec (completed : Nat → Option CompletedEntry)
    (locks : Nat → Option LockEntry) (threadId : String) (maxId : Option Nat) :
    ∀ fuel probeId, scanForWork completed locks threadId maxId probeId fuel = none →
      ∀ j, probeId ≤ j → j < probeId + fuel →
        (∀ m, maxId = some m → j ≤ m) →
        eligibleFor completed locks threadId j = false := by
  intro fuel
  induction fuel with
  | zero => intro probeId _ j h1 h2 _; omega
  | succ f ih =>
    intro probeId h j h1 h2 h3
    rw [scanForWork] at h
    by_cases hmax : exceedsMax maxId probeId
    · cases hm : maxId with
      | none => simp [exceedsMax, hm] at hmax
      | some m =>
        simp [exceedsMax, hm] at hmax
        have := h3 m hm
        omega
    · by_cases helig : eligibleFor completed locks threadId probeId
      · simp [hmax, helig] at h
      · simp [hmax, helig] at h
        rcases Nat.eq_or_lt_of_le h1 with heq | hlt
        · subst heq; simpa using helig
        · exact ih (probeId + 1) h j hlt (by omega) h3

theorem scanForWork_finds_least (completed : Nat → Option CompletedEntry)
    (locks : Nat → Option LockEntry) (threadId : String) (maxId : Option Nat)
    (fuel probeId id : Nat)
    (helig : eligibleFor completed locks threadId id = true)
    (hge : probeId ≤ id) (hlt : id < probeId + fuel)
    (hmax : ∀ m, maxId = some m → id ≤ m)
    (hleast : ∀ j, probeId ≤ j → j < id → eligibleFor completed locks threadId j = false) :
    scanForWork completed locks threadId maxId probeId fuel = some id := by
  cases h : scanForWork completed locks threadId maxId probeId fuel with
  | none =>
    have := scanForWork_none_spec completed locks threadId maxId fuel probeId h id hge hlt hmax
    rw [helig] at this
    exact absurd this (by simp)
  | some id2 =>
    obtain ⟨h1, h2, h3, h4, h5⟩ :=
      scanForWork_some_spec completed locks threadId maxId fuel probeId id2 h
    rcases Nat.lt_trichotomy id2 id with hc | hc | hc
    · have := hleast id2 h1 hc
      rw [h3] at this
      exact absurd this (by simp)
    · rw [hc]
    · have := h4 id hge hc
      rw [helig] at this
      exact absurd this (by simp)

/-! ## Characterization of requestWork -/

theorem requestWork_of_globalStop (s : RegistryState) (threadId : String)
    (originTabId : Option Nat) (now : Nat)
    (h : s.workRegistry.globalStop = true) :
    requestWork s threadId originTabId now = (.done, s) := by
  simp [requestWork, h]

theorem requestWork_of_scan_none (s : RegistryState) (threadId : String)
    (originTabId : Option Nat) (now : Nat)
    (hstop : s.workRegistry.globalStop = false)
    (h : scanForWork s.completedPatients s.patientLocks threadId s.workRegistry.maxId
          s.workRegistry.nextPatientId 5000 = none) :
    requestWork s threadId originTabId now = (.done, s) := by
  simp [requestWork, hstop, h]

theorem requestWork_of_scan_some (s : RegistryState) (threadId : String)
    (originTabId : Option Nat) (now : Nat) (id : Nat)
    (hstop : s.workRegistry.globalStop = false)
    (h : scanForWork s.completedPatients s.patientLocks threadId s.workRegistry.maxId
          s.workRegistry.nextPatientId 5000 = some id) :
    (requestWork s threadId originTabId now).1 =
        .assigned id s.workRegistry.clinicName ∧
    (requestWork s threadId originTabId now).2.patientLocks =
        updN s.patientLocks id (some ⟨threadId, now, "locked"⟩) ∧
    (requestWork s threadId originTabId now).2.workRegistry.nextPatientId = id + 1 ∧
    (requestWork s threadId originTabId now).2.completedPatients = s.completedPatients := by
  simp [requestWork, hstop, h]

theorem requestWork_inv (s : RegistryState) (threadId : String)
    (originTabId : Option Nat) (now : Nat) (id : Nat) (c : String)
    (h : (requestWork s threadId originTabId now).1 = .assigned id c) :
    s.workRegistry.globalStop = false ∧
    scanForWork s.completedPatients s.patientLocks threadId s.workRegistry.maxId
        s.workRegistry.nextPatientId 5000 = some id := by
  by_cases hstop : s.workRegistry.globalStop
  · rw [requestWork_of_globalStop s threadId originTabId now hstop] at h
    simp at h
  · cases hscan : scanForWork s.completedPatients s.patientLocks threadId
        s.workRegistry.maxId s.workRegistry.nextPatientId 5000 with
    | none =>
      rw [requestWork_of_scan_none s threadId originTabId now (by simpa using hstop) hscan] at h
      simp at h
    | some id2 =>
      refine ⟨by simpa using hstop, ?_⟩
      simp [requestWork, hstop, hscan] at h
      exact congrArg some h.1

theorem requestWork_ptr_le (s : RegistryState) (threadId : String)
    (originTabId : Option Nat) (now : Nat) :
    s.workRegistry.nextPatientId ≤
      (requestWork s threadId originTabId now).2.workRegistry.nextPatientId := by
  by_cases hstop : s.workRegistry.globalStop
  · rw [requestWork_of_globalStop s threadId originTabId now hstop]
  · cases hscan : scanForWork s.completedPatients s.patientLocks threadId
        s.workRegistry.maxId s.workRegistry.nextPatientId 5000 with
    | none =>
      rw [requestWork_of_scan_none s threadId originTabId now (by simpa using hstop) hscan]
    | some id =>
      obtain ⟨hge, _⟩ := scanForWork_some_spec s.completedPatients s.patientLocks threadId
        s.workRegistry.maxId 5000 s.workRegistry.nextPatientId id hscan
      obtain ⟨_, _, hptr, _⟩ := requestWork_of_scan_some s threadId originTabId now id
        (by simpa using hstop) hscan
      omega

theorem requestWork_locks_not_erased (s : RegistryState) (threadId : String)
    (originTabId : Option Nat) (now : Nat) (q : Nat) (l : LockEntry)
    (hq : s.patientLocks q = some l) :
    (requestWork s threadId originTabId now).2.patientLocks q ≠ none := by
  by_cases hstop : s.workRegistry.globalStop
  · rw [requestWork_of_globalStop s threadId originTabId now hstop]
    simp [hq]
  · cases hscan : scanForWork s.completedPatients s.patientLocks threadId
        s.workRegistry.maxId s.workRegistry.nextPatientId 5000 with
    | none =>
      rw [requestWork_of_scan_none s threadId originTabId now (by simpa using hstop) hscan]
      simp [hq]
    | some id =>
      obtain ⟨_, hlocks, _⟩ := requestWork_of_scan_some s threadId originTabId now id
        (by simpa using hstop) hscan
      rw [hlocks]
      by_cases hqi : q = id
      · subst hqi; simp [updN_same]
      · rw [updN_other _ _ _ _ hqi]
        simp [hq]

/-! ## Concrete registries used to evaluate the theorems on closed inputs -/

/-- Fresh registry right after a startThreads reset: pointer 1, maxId 10,
nothing locked or completed. -/
def testRegistry : RegistryState :=
  { workRegistry := { clinicName := "acme", startingIndex := 1, nextPatientId := 1,
                      maxId := some 10, globalStop := false },
    patientLocks := fun _ => none,
    completedPatients := fun _ => none,
    activeThreads := fun _ => none,
    stopRequested := false,
    globalCooldownUntil := 0,
    pendingAutoClear := false }

/-- The same registry with the global stop flag raised. -/
def stoppedRegistry : RegistryState :=
  { testRegistry with
    workRegistry := { testRegistry.workRegistry with globalStop := true } }

/-- A registry whose id range is exhausted: pointer 1 with maxId 0. -/
def exhaustedRegistry : RegistryState :=
  { testRegistry with
    workRegistry := { testRegistry.workRegistry with maxId := some 0 } }

/-- A registry where patient 1 is locked by worker T2. -/
def lockedByT2Registry : RegistryState :=
  { testRegistry with
    patientLocks := updN (fun _ => none) 1 (some ⟨"T2", 3, "locked"⟩) }

/-- A registry where patient 1 is locked by worker T1 itself. -/
def selfLockedRegistry : RegistryState :=
  { testRegistry with
    patientLocks := updN (fun _ => none) 1 (some ⟨"T1", 3, "locked"⟩) }

/-! ## Claim theorems -/

/-- C4: for every registry state in which the global stop flag is set,
requestWork returns Done immediately and performs no writes: the scan
pointer, the lock map, the completed set and the thread table are exactly
unchanged. -/
theorem requestWork_under_stop_is_pure_read (s : RegistryState) (threadId : String)
    (originTabId : Option Nat) (now : Nat)
    (h : s.workRegistry.globalStop = true) :
    (requestWork s threadId originTabId now).1 = .done ∧
    (requestWork s threadId originTabId now).2 = s := by
  rw [requestWork_of_globalStop s threadId originTabId now h]
  exact ⟨rfl, rfl⟩

theorem requestWork_under_stop_is_pure_read_witness :
    (requestWork stoppedRegistry "T1" none 5).1 = .done ∧
    (requestWork stoppedRegistry "T1" none 5).2 = stoppedRegistry :=
  requestWork_under_stop_is_pure_read stoppedRegistry "T1" none 5 rfl

/-- C2: with the stop flag unset, requestWork assigns the smallest id at or
above the scan pointer that is neither completed nor locked by a different
worker, provided it lies within the 5000-probe window and under maxId; it
records a lock on that id for the calling thread and moves the pointer to
id + 1.  When no eligible id exists in the window and under maxId, it
returns Done and writes nothing. -/
theorem requestWork_assignment_correct :
    (∀ (s : RegistryState) (threadId : String) (originTabId : Option Nat) (now id0 : Nat),
      s.workRegistry.globalStop = false →
      s.workRegistry.nextPatientId ≤ id0 →
      id0 < s.workRegistry.nextPatientId + 5000 →
      (∀ m, s.workRegistry.maxId = some m → id0 ≤ m) →
      eligibleFor s.completedPatients s.patientLocks threadId id0 = true →
      (∀ j, s.workRegistry.nextPatientId ≤ j → j < id0 →
        eligibleFor s.completedPatients s.patientLocks threadId j = false) →
      (requestWork s threadId originTabId now).1 =
          .assigned id0 s.workRegistry.clinicName ∧
      (requestWork s threadId originTabId now).2.patientLocks id0 =
          some ⟨threadId, now, "locked"⟩ ∧
      (requestWork s threadId originTabId now).2.workRegistry.nextPatientId = id0 + 1) ∧
    (∀ (s : RegistryState) (threadId : String) (originTabId : Option Nat) (now : Nat),
      s.workRegistry.globalStop = false →
      (∀ j, s.workRegistry.nextPatientId ≤ j →
        j < s.workRegistry.nextPatientId + 5000 →
        (∀ m, s.workRegistry.maxId = some m → j ≤ m) →
        eligibleFor s.completedPatients s.patientLocks threadId j = false) →
      requestWork s threadId originTabId now = (.done, s)) := by
  constructor
  · intro s threadId originTabId now id0 hstop hge hlt hmax helig hleast
    have hscan := scanForWork_finds_least s.completedPatients s.patientLocks threadId
      s.workRegistry.maxId 5000 s.workRegistry.nextPatientId id0 helig hge hlt hmax hleast
    obtain ⟨h1, h2, h3, _⟩ := requestWork_of_scan_some s threadId originTabId now id0
      hstop hscan
    refine ⟨h1, ?_, h3⟩
    rw [h2, updN_same]
  · intro s threadId originTabId now hstop hnone
    apply requestWork_of_scan_none s threadId originTabId now hstop
    cases hscan : scanForWork s.completedPatients s.patientLocks threadId
        s.workRegistry.maxId s.workRegistry.nextPatientId 5000 with
    | none => rfl
    | some id2 =>
      obtain ⟨h1, h2, h3, _, h5⟩ := scanForWork_some_spec s.completedPatients s.patientLocks
        threadId s.workRegistry.maxId 5000 s.workRegistry.nextPatientId id2 hscan
      have := hnone id2 h1 h2 h5
      rw [h3] at this
      cases this

theorem requestWork_assignment_correct_witness :
    ((requestWork testRegistry "T1" (some 7) 42).1 = .assigned 1 "acme" ∧
      (requestWork testRegistry "T1" (some 7) 42).2.patientLocks 1 =
        some ⟨"T1", 42, "locked"⟩ ∧
      (requestWork testRegistry "T1" (some 7) 42).2.workRegistry.nextPatientId = 2) ∧
    requestWork exhaustedRegistry "T1" none 0 = (.done, exhaustedRegistry) := by
  constructor
  · exact requestWork_assignment_correct.1 testRegistry "T1" (some 7) 42 1 rfl
      (by decide) (by decide)
      (by intro m hm; simp [testRegistry] at hm; omega) rfl
      (by intro j h1 h2; simp [testRegistry] at h1; omega)
  · exact requestWork_assignment_correct.2 exhaustedRegistry "T1" none 0 rfl
      (by intro j h1 _ hm
          have h0 := hm 0 (by simp [exhaustedRegistry, testRegistry])
          simp [exhaustedRegistry, testRegistry] at h1
          omega)

/-- C3: the scan pointer never decreases across any sequence of requestWork
calls; a call returning Done leaves it unchanged, and a call returning
Assigned(id) sets it to id + 1, strictly above its previous value. -/
theorem scan_pointer_monotonic :
    (∀ (s : RegistryState) (reqs : List (String × Option Nat × Nat)),
      s.workRegistry.nextPatientId ≤ (runRequests s reqs).workRegistry.nextPatientId) ∧
    (∀ (s : RegistryState) (threadId : String) (originTabId : Option Nat) (now : Nat),
      (requestWork s threadId originTabId now).1 = .done →
      (requestWork s threadId originTabId now).2.workRegistry.nextPatientId =
        s.workRegistry.nextPatientId) ∧
    (∀ (s : RegistryState) (threadId : String) (originTabId : Option Nat)
        (now id : Nat) (c : String),
      (requestWork s threadId originTabId now).1 = .assigned id c →
      (requestWork s threadId originTabId now).2.workRegistry.nextPatientId = id + 1 ∧
      s.workRegistry.nextPatientId < id + 1) := by
  refine ⟨?_, ?_, ?_⟩
  · intro s reqs
    induction reqs generalizing s with
    | nil => exact le_refl _
    | cons r rest ih =>
      obtain ⟨t, tab, now⟩ := r
      calc s.workRegistry.nextPatientId
          ≤ (requestWork s t tab now).2.workRegistry.nextPatientId :=
            requestWork_ptr_le s t tab now
        _ ≤ (runRequests (requestWork s t tab now).2 rest).workRegistry.nextPatientId :=
            ih (requestWork s t tab now).2
        _ = (runRequests s ((t, tab, now) :: rest)).workRegistry.nextPatientId := rfl
  · intro s threadId originTabId now hdone
    by_cases hstop : s.workRegistry.globalStop
    · rw [requestWork_of_globalStop s threadId originTabId now hstop]
    · cases hscan : scanForWork s.completedPatients s.patientLocks threadId
          s.workRegistry.maxId s.workRegistry.nextPatientId 5000 with
      | none =>
        rw [requestWork_of_scan_none s threadId originTabId now (by simpa using hstop) hscan]
      | some id =>
        obtain ⟨hresp, _⟩ := requestWork_of_scan_some s threadId originTabId now id
          (by simpa using hstop) hscan
        rw [hresp] at hdone
        cases hdone
  · intro s threadId originTabId now id c hassigned
    obtain ⟨hstop, hscan⟩ := requestWork_inv s threadId originTabId now id c hassigned
    obtain ⟨hge, _⟩ := scanForWork_some_spec s.completedPatients s.patientLocks threadId
      s.workRegistry.maxId 5000 s.workRegistry.nextPatientId id hscan
    obtain ⟨_, _, hptr, _⟩ := requestWork_of_scan_some s threadId originTabId now id
      hstop hscan
    exact ⟨hptr, by omega⟩

theorem scan_pointer_monotonic_witness :
    testRegistry.workRegistry.nextPatientId ≤
      (runRequests testRegistry [("T1", none, 0), ("T2", none, 1)]).workRegistry.nextPatientId ∧
    (requestWork stoppedRegistry "T1" none 0).2.workRegistry.nextPatientId =
      stoppedRegistry.workRegistry.nextPatientId ∧
    (requestWork testRegistry "T1" none 0).2.workRegistry.nextPatientId = 1 + 1 ∧
    testRegistry.workRegistry.nextPatientId < 1 + 1 := by
  refine ⟨scan_pointer_monotonic.1 testRegistry _, ?_, ?_⟩
  · exact scan_pointer_monotonic.2.1 stoppedRegistry "T1" none 0 rfl
  · exact scan_pointer_monotonic.2.2 testRegistry "T1" none 0 1 "acme" rfl

/-- C10: a worker's own lock never blocks it: when the smallest
otherwise-eligible id at or above the scan pointer is locked by the
requesting worker itself, requestWork re-assigns that id to the same worker
and refreshes its lock, so a stale lock left by a restarted worker is
re-issued rather than deadlocking the scan. -/
theorem own_lock_reassigned (s : RegistryState) (threadId : String)
    (originTabId : Option Nat) (now id0 : Nat) (l : LockEntry)
    (hstop : s.workRegistry.globalStop = false)
    (hlock : s.patientLocks id0 = some l) (hown : l.threadId = threadId)
    (hcomp : s.completedPatients id0 = none)
    (hge : s.workRegistry.nextPatientId ≤ id0)
    (hlt : id0 < s.workRegistry.nextPatientId + 5000)
    (hmax : ∀ m, s.workRegistry.maxId = some m → id0 ≤ m)
    (hleast : ∀ j, s.workRegistry.nextPatientId ≤ j → j < id0 →
        eligibleFor s.completedPatients s.patientLocks threadId j = false) :
    (requestWork s threadId originTabId now).1 =
        .assigned id0 s.workRegistry.clinicName ∧
    (requestWork s threadId originTabId now).2.patientLocks id0 =
        some ⟨threadId, now, "locked"⟩ := by
  have helig : eligibleFor s.completedPatients s.patientLocks threadId id0 = true := by
    simp [eligibleFor, lockedByOther, hlock, hcomp, hown]
  have hscan := scanForWork_finds_least s.completedPatients s.patientLocks threadId
    s.workRegistry.maxId 5000 s.workRegistry.nextPatientId id0 helig hge hlt hmax hleast
  obtain ⟨h1, h2, _⟩ := requestWork_of_scan_some s threadId originTabId now id0 hstop hscan
  refine ⟨h1, ?_⟩
  rw [h2, updN_same]

theorem own_lock_reassigned_witness :
    (requestWork selfLockedRegistry "T1" none 9).1 = .assigned 1 "acme" ∧
    (requestWork selfLockedRegistry "T1" none 9).2.patientLocks 1 =
      some ⟨"T1", 9, "locked"⟩ :=
  own_lock_reassigned selfLockedRegistry "T1" none 9 1 ⟨"T1", 3, "locked"⟩ rfl rfl rfl
    rfl (by decide) (by decide)
    (by intro m hm; simp [selfLockedRegistry, testRegistry] at hm; omega)
    (by intro j h1 h2; simp [selfLockedRegistry, testRegistry] at h1; omega)

theorem autoClearStopTimer_locks (s : RegistryState) :
    (autoClearStopTimer s).patientLocks = s.patientLocks := by
  unfold autoClearStopTimer
  split <;> rfl

/-- C1: lock mutual exclusion in the serialized coordinator model.  Each id
has at most one lock entry; across every coordinator operation a lock can
only disappear through a completeWork or patientNotFound / patientNoCharts
message from its holder, or through the startThreads reset; and requestWork
never assigns an id whose lock is held by a different worker. -/
theorem lock_mutual_exclusion :
    (∀ (s : RegistryState) (id : Nat) (l1 l2 : LockEntry),
      s.patientLocks id = some l1 → s.patientLocks id = some l2 → l1 = l2) ∧
    (∀ (s : RegistryState) (op : CoordOp) (id : Nat) (l : LockEntry),
      s.patientLocks id = some l → (applyOp s op).patientLocks id = none →
      (∃ pn zf succ now, op = .completeWorkOp l.threadId id pn zf succ now) ∨
      op = .releasePatientOp l.threadId id ∨
      (∃ cn si mi seed ths, op = .startThreadsResetOp cn si mi seed ths)) ∧
    (∀ (s : RegistryState) (threadId : String) (originTabId : Option Nat)
        (now id : Nat) (l : LockEntry) (c : String),
      s.patientLocks id = some l → l.threadId ≠ threadId →
      (requestWork s threadId originTabId now).1 ≠ .assigned id c) := by
  refine ⟨?_, ?_, ?_⟩
  · intro s id l1 l2 h1 h2
    rw [h1] at h2
    cases h2
    rfl
  · intro s op id l hl hnone
    cases op with
    | requestWorkOp t tab now =>
      exact absurd hnone (requestWork_locks_not_erased s t tab now id l hl)
    | completeWorkOp t pid pn zf succ now =>
      simp only [applyOp, completeWork] at hnone
      obtain ⟨hqp, ht⟩ := lockRelease_none_inv s.patientLocks t pid id l hl hnone
      subst hqp
      exact Or.inl ⟨pn, zf, succ, now, by rw [ht]⟩
    | releasePatientOp t pid =>
      simp only [applyOp, releasePatient] at hnone
      obtain ⟨hqp, ht⟩ := lockRelease_none_inv s.patientLocks t pid id l hl hnone
      subst hqp
      exact Or.inr (Or.inl (by rw [ht]))
    | broadcastStopOp =>
      simp only [applyOp, broadcastStop] at hnone
      rw [hl] at hnone
      cases hnone
    | autoClearStopOp =>
      simp only [applyOp] at hnone
      rw [autoClearStopTimer_locks, hl] at hnone
      cases hnone
    | cooldownClearOp =>
      simp only [applyOp, cooldownClear] at hnone
      rw [hl] at hnone
      cases hnone
    | startThreadsResetOp cn si mi seed ths =>
      exact Or.inr (Or.inr ⟨cn, si, mi, seed, ths, rfl⟩)
    | threadCompleteOp t =>
      simp only [applyOp, threadComplete] at hnone
      rw [hl] at hnone
      cases hnone
  · intro s threadId originTabId now id l c hl hne heq
    obtain ⟨_, hscan⟩ := requestWork_inv s threadId originTabId now id c heq
    obtain ⟨_, _, h3, _⟩ := scanForWork_some_spec s.completedPatients s.patientLocks
      threadId s.workRegistry.maxId 5000 s.workRegistry.nextPatientId id hscan
    simp [eligibleFor, lockedByOther, hl] at h3
    exact hne h3.2

theorem lock_mutual_exclusion_witness :
    (requestWork lockedByT2Registry "T1" none 0).1 ≠ .assigned 1 "acme" :=
  lock_mutual_exclusion.2.2 lockedByT2Registry "T1" none 0 1 ⟨"T2", 3, "locked"⟩ "acme"
    rfl (by decide)

/-- C5 counterexample: the claim says the stop flag set by broadcastStop
stays set until an explicit resume clears it, and that until then every
requestWork returns Done.  In the source, broadcastStop itself schedules a
1.5 second timer that clears workRegistry.globalStop (lines 163-171); after
broadcastStop and that automatic timer alone, with no resume of any kind,
requestWork assigns work again. -/
theorem stop_responsiveness_counterexample :
    (broadcastStop testRegistry).workRegistry.globalStop = true ∧
    (broadcastStop testRegistry).pendingAutoClear = true ∧
    (autoClearStopTimer (broadcastStop testRegistry)).workRegistry.globalStop = false ∧
    (requestWork (autoClearStopTimer (broadcastStop testRegistry)) "T1" none 0).1 =
      .assigned 1 "acme" :=
  ⟨rfl, rfl, rfl, rfl⟩

/-- C5 amended: broadcastStop sets the global stop flag and schedules its own
auto-clear timer; while the flag is set, every requestWork returns Done
without writing; and the flag survives every coordinator operation except
broadcastStop's own 1.5 second auto-clear timer and the startThreads reset.
No explicit resume operation exists: the flag is cleared automatically
shortly after broadcastStop. -/
theorem stop_responsiveness_amended :
    (∀ s : RegistryState, (broadcastStop s).workRegistry.globalStop = true ∧
        (broadcastStop s).pendingAutoClear = true) ∧
    (∀ (s : RegistryState) (threadId : String) (originTabId : Option Nat) (now : Nat),
        s.workRegistry.globalStop = true →
        requestWork s threadId originTabId now = (.done, s)) ∧
    (∀ (s : RegistryState) (op : CoordOp), s.workRegistry.globalStop = true →
        clearsGlobalStop op = false →
        (applyOp s op).workRegistry.globalStop = true) := by
  refine ⟨fun s => ⟨rfl, rfl⟩, ?_, ?_⟩
  · intro s threadId originTabId now h
    exact requestWork_of_globalStop s threadId originTabId now h
  · intro s op hstop hop
    cases op with
    | requestWorkOp t tab now =>
      simp only [applyOp]
      rw [requestWork_of_globalStop s t tab now hstop]
      exact hstop
    | completeWorkOp t pid pn zf succ now => exact hstop
    | releasePatientOp t pid => exact hstop
    | broadcastStopOp => rfl
    | autoClearStopOp => cases hop
    | cooldownClearOp => exact hstop
    | startThreadsResetOp cn si mi seed ths => cases hop
    | threadCompleteOp t => exact hstop

theorem stop_responsiveness_amended_witness :
    requestWork stoppedRegistry "T2" none 3 = (.done, stoppedRegistry) ∧
    (applyOp stoppedRegistry (.completeWorkOp "T1" 4 "Ann" "a.zip" true 7)).workRegistry.globalStop
      = true := by
  constructor
  · exact stop_responsiveness_amended.2.1 stoppedRegistry "T2" none 3 rfl
  · exact stop_responsiveness_amended.2.2 stoppedRegistry
      (.completeWorkOp "T1" 4 "Ann" "a.zip" true 7) rfl rfl

/-- C6 counterexample: the claim says a second completeWork call with the
identical argument tuple (threadId, patientId, patientName, zipFilename,
success) is a no-op.  Each real call reads Date.now() afresh, and with
success set the handler overwrites completedPatients[patientId] including
its timestamp field (background.js lines 673-679): with clock readings 5
then 6, the completed entry after the second call carries timestamp 6 where
a single call left 5, so the second call is not a no-op. -/
theorem completeWork_idempotent_counterexample :
    (completeWork (completeWork testRegistry "T1" 4 "Ann" "a.zip" true 5)
        "T1" 4 "Ann" "a.zip" true 6).completedPatients 4 =
      some ⟨some "Ann", some "a.zip", some 6, some "T1", none⟩ ∧
    (completeWork testRegistry "T1" 4 "Ann" "a.zip" true 5).completedPatients 4 =
      some ⟨some "Ann", some "a.zip", some 5, some "T1", none⟩ ∧
    completeWork (completeWork testRegistry "T1" 4 "Ann" "a.zip" true 5)
        "T1" 4 "Ann" "a.zip" true 6 ≠
      completeWork testRegistry "T1" 4 "Ann" "a.zip" true 5 := by
  have e1 : (completeWork (completeWork testRegistry "T1" 4 "Ann" "a.zip" true 5)
      "T1" 4 "Ann" "a.zip" true 6).completedPatients 4 =
      some ⟨some "Ann", some "a.zip", some 6, some "T1", none⟩ := rfl
  have e2 : (completeWork testRegistry "T1" 4 "Ann" "a.zip" true 5).completedPatients 4 =
      some ⟨some "Ann", some "a.zip", some 5, some "T1", none⟩ := rfl
  refine ⟨e1, e2, ?_⟩
  intro h
  have hts := congrArg (fun st => st.completedPatients 4) h
  simp only at hts
  rw [e1, e2] at hts
  exact absurd hts (by decide)

/-- C6 amended: completeWork is idempotent except for the completed entry's
timestamp.  With success unset, a second call with the identical argument
tuple is exactly a no-op whatever the two clock readings.  With success set,
the second call leaves the lock map, the thread table and every other field
unchanged and only rewrites completedPatients[patientId] with the same
record carrying the second call's Date.now(); in particular, when the two
clock readings coincide the second call is exactly a no-op. -/
theorem completeWork_idempotent_amended :
    (∀ (s : RegistryState) (threadId : String) (patientId : Nat)
        (patientName zipFilename : String) (now1 now2 : Nat),
      completeWork (completeWork s threadId patientId patientName zipFilename false now1)
          threadId patientId patientName zipFilename false now2 =
        completeWork s threadId patientId patientName zipFilename false now1) ∧
    (∀ (s : RegistryState) (threadId : String) (patientId : Nat)
        (patientName zipFilename : String) (now1 now2 : Nat),
      completeWork (completeWork s threadId patientId patientName zipFilename true now1)
          threadId patientId patientName zipFilename true now2 =
        { completeWork s threadId patientId patientName zipFilename true now1 with
            completedPatients :=
              updN (completeWork s threadId patientId patientName zipFilename true
                  now1).completedPatients patientId
                (some ⟨some patientName, some zipFilename, some now2, some threadId,
                  none⟩) }) ∧
    (∀ (s : RegistryState) (threadId : String) (patientId : Nat)
        (patientName zipFilename : String) (success : Bool) (now : Nat),
      completeWork (completeWork s threadId patientId patientName zipFilename success now)
          threadId patientId patientName zipFilename success now =
        completeWork s threadId patientId patientName zipFilename success now) := by
  refine ⟨?_, ?_, ?_⟩
  · intro s threadId patientId patientName zipFilename now1 now2
    unfold completeWork
    ext1
    · rfl
    · exact lockRelease_idem s.patientLocks threadId patientId
    · rfl
    · exact threadSetIdle_idem s.activeThreads threadId
    · rfl
    · rfl
    · rfl
  · intro s threadId patientId patientName zipFilename now1 now2
    unfold completeWork
    ext1
    · rfl
    · exact lockRelease_idem s.patientLocks threadId patientId
    · rfl
    · exact threadSetIdle_idem s.activeThreads threadId
    · rfl
    · rfl
    · rfl
  · intro s threadId patientId patientName zipFilename success now
    unfold completeWork
    ext1
    · rfl
    · exact lockRelease_idem s.patientLocks threadId patientId
    · cases success with
      | false => rfl
      | true => exact updN_absorb s.completedPatients patientId _ _
    · exact threadSetIdle_idem s.activeThreads threadId
    · rfl
    · rfl
    · rfl

/-! ## Worker wait model (src/unnamed/part_001, content script)

The worker keeps two globals (lines 352-355): `shouldStop` and
`activeTimeouts`.  `sleep(ms)` (lines 488-506) rejects immediately with the
Error 'Stopped' when `shouldStop` is already set; otherwise it registers a
setTimeout whose callback removes itself from `activeTimeouts` and resolves
the promise.  `cancelAllTimeouts` (lines 521-524) calls clearTimeout on every
tracked timer and empties the list; a cleared timer's callback never runs, so
the corresponding promise is never settled.  The stopScraping message handler
(lines 2088-2098) sets `shouldStop` and calls `cancelAllTimeouts`. -/

/-- Settlement status of one sleep promise. -/
inductive PromiseStatus
  | pending
  | resolvedOk
  | rejectedStopped
deriving DecidableEq, Repr

/-- The worker's timer subsystem: the stop flag, the tracked timer list, the
status of every sleep promise created so far (indexed by creation order), and
the next fresh timer id. -/
structure WorkerTimers where
  shouldStop : Bool
  activeTimeouts : List Nat
  promises : Nat → Option PromiseStatus
  nextTimerId : Nat

/-- A call to `sleep` (lines 488-506): if `shouldStop` is set the returned
promise is rejected with 'Stopped' at once and no timer is created;
otherwise a fresh timer is registered and tracked and the promise is left
pending until the timer fires.  Returns the new promise id. -/
def sleepCall (w : WorkerTimers) : WorkerTimers × Nat :=
  if w.shouldStop then
    ({ w with promises := updN w.promises w.nextTimerId (some .rejectedStopped),
              nextTimerId := w.nextTimerId + 1 }, w.nextTimerId)
  else
    ({ w with promises := updN w.promises w.nextTimerId (some .pending),
              activeTimeouts := w.activeTimeouts ++ [w.nextTimerId],
              nextTimerId := w.nextTimerId + 1 }, w.nextTimerId)

/-- A setTimeout callback firing (lines 497-501).  A timer cleared by
clearTimeout is no longer scheduled, so only timers still in
`activeTimeouts` can fire; the callback removes itself from the tracking
list and resolves its promise. -/
def timerFire (w : WorkerTimers) (id : Nat) : WorkerTimers :=
  if id ∈ w.activeTimeouts then
    { w with activeTimeouts := w.activeTimeouts.filter (fun t0 => t0 ≠ id),
             promises := updN w.promises id (some .resolvedOk) }
  else w

/-- The stopScraping message handler (lines 2088-2098): set `shouldStop` and
cancel all tracked timers.  No pending promise is settled. -/
def stopScrapingMsg (w : WorkerTimers) : WorkerTimers :=
  { w with shouldStop := true, activeTimeouts := [] }

/-- Events the timer subsystem can observe. -/
inductive WorkerEvent
  | sleepEv
  | fireEv (id : Nat)
  | stopEv
deriving DecidableEq, Repr

/-- One event step. -/
def stepWorker (w : WorkerTimers) : WorkerEvent → WorkerTimers
  | .sleepEv => (sleepCall w).1
  | .fireEv id => timerFire w id
  | .stopEv => stopScrapingMsg w

/-- A sequence of events. -/
def runWorker (w : WorkerTimers) : List WorkerEvent → WorkerTimers
  | [] => w
  | e :: rest => runWorker (stepWorker w e) rest

/-- The worker at page load: not stopped, no timers, no promises. -/
def freshWorker : WorkerTimers :=
  { shouldStop := false, activeTimeouts := [], promises := fun _ => none,
    nextTimerId := 0 }

theorem stepWorker_nextTimerId_le (w : WorkerTimers) (e : WorkerEvent) :
    w.nextTimerId ≤ (stepWorker w e).nextTimerId := by
  cases e with
  | sleepEv =>
    by_cases h : w.shouldStop <;> simp [stepWorker, sleepCall, h]
  | fireEv id =>
    by_cases h : id ∈ w.activeTimeouts <;> simp [stepWorker, timerFire, h]
  | stopEv => exact le_refl _

theorem stepWorker_orphan_stays (w : WorkerTimers) (e : WorkerEvent) (id : Nat)
    (hid : id < w.nextTimerId) (hout : id ∉ w.activeTimeouts)
    (hpend : w.promises id = some .pending) :
    id < (stepWorker w e).nextTimerId ∧ id ∉ (stepWorker w e).activeTimeouts ∧
    (stepWorker w e).promises id = some .pending := by
  cases e with
  | sleepEv =>
    by_cases h : w.shouldStop
    · refine ⟨by simp [stepWorker, sleepCall, h]; omega, ?_, ?_⟩
      · simpa [stepWorker, sleepCall, h] using hout
      · simp [stepWorker, sleepCall, h]
        rw [updN_other _ _ _ _ (by omega)]
        exact hpend
    · refine ⟨by simp [stepWorker, sleepCall, h]; omega, ?_, ?_⟩
      · simp [stepWorker, sleepCall, h]
        exact ⟨hout, by omega⟩
      · simp [stepWorker, sleepCall, h]
        rw [updN_other _ _ _ _ (by omega)]
        exact hpend
  | fireEv j =>
    by_cases h : j ∈ w.activeTimeouts
    · have hne : id ≠ j := fun hc => hout (hc ▸ h)
      refine ⟨by simpa [stepWorker, timerFire, h] using hid, ?_, ?_⟩
      · simp [stepWorker, timerFire, h]
        intro hc
        exact absurd hc hout
      · simp [stepWorker, timerFire, h]
        rw [updN_other _ _ _ _ hne]
        exact hpend
    · simpa [stepWorker, timerFire, h] using ⟨hid, hout, hpend⟩
  | stopEv =>
    refine ⟨hid, by simp [stepWorker, stopScrapingMsg], ?_⟩
    simpa [stepWorker, stopScrapingMsg] using hpend

theorem runWorker_orphan_stays (evs : List WorkerEvent) (w : WorkerTimers) (id : Nat)
    (hid : id < w.nextTimerId) (hout : id ∉ w.activeTimeouts)
    (hpend : w.promises id = some .pending) :
    (runWorker w evs).promises id = some .pending := by
  induction evs generalizing w with
  | nil => exact hpend
  | cons e rest ih =>
    obtain ⟨h1, h2, h3⟩ := stepWorker_orphan_stays w e id hid hout hpend
    exact ih (stepWorker w e) h1 h2 h3

/-- C7 counterexample: the claim says a wait that is in flight when the stop
flag becomes set aborts with the distinguished 'Stopped' outcome.  In the
source, stopScraping cancels the tracked setTimeout, so the sleep promise is
neither resolved nor rejected: after a sleep followed by the stop message,
promise 0 is still pending (not rejected with 'Stopped') and its timer is
gone from the schedule, so no outcome can ever be delivered. -/
theorem wait_interruption_counterexample :
    (runWorker freshWorker [.sleepEv, .stopEv]).shouldStop = true ∧
    (runWorker freshWorker [.sleepEv, .stopEv]).promises 0 = some .pending ∧
    (runWorker freshWorker [.sleepEv, .stopEv]).activeTimeouts = [] ∧
    some PromiseStatus.pending ≠ some PromiseStatus.rejectedStopped := by
  refine ⟨rfl, ?_, rfl, by simp⟩
  simp [runWorker, stepWorker, freshWorker, sleepCall, stopScrapingMsg, updN]

/-- C7 amended: a sleep entered while the stop flag is already set rejects
immediately with the 'Stopped' outcome, without registering a timer.  A wait
in flight when the flag becomes set is not aborted with 'Stopped': the stop
path cancels its timer, and from then on the promise stays pending forever
(no outcome at all), under every possible sequence of further events. -/
theorem wait_interruption_amended :
    (∀ w : WorkerTimers, w.shouldStop = true →
      (sleepCall w).1.promises (sleepCall w).2 = some .rejectedStopped ∧
      (sleepCall w).1.activeTimeouts = w.activeTimeouts) ∧
    (∀ w : WorkerTimers, (stopScrapingMsg w).shouldStop = true ∧
      (stopScrapingMsg w).activeTimeouts = []) ∧
    (∀ (w : WorkerTimers) (id : Nat) (evs : List WorkerEvent),
      id < w.nextTimerId → id ∉ w.activeTimeouts →
      w.promises id = some .pending →
      (runWorker w evs).promises id = some .pending) := by
  refine ⟨?_, fun w => ⟨rfl, rfl⟩, ?_⟩
  · intro w h
    constructor
    · simp [sleepCall, h, updN_same]
    · simp [sleepCall, h]
  · intro w id evs hid hout hpend
    exact runWorker_orphan_stays evs w id hid hout hpend

/-- The worker state after one sleep and the stop message, used to evaluate
the amended C7 theorem on closed inputs. -/
def orphanedWorker : WorkerTimers :=
  runWorker freshWorker [.sleepEv, .stopEv]

theorem wait_interruption_amended_witness :
    ((sleepCall orphanedWorker).1.promises (sleepCall orphanedWorker).2 =
        some .rejectedStopped ∧
      (sleepCall orphanedWorker).1.activeTimeouts = orphanedWorker.activeTimeouts) ∧
    (runWorker orphanedWorker [.fireEv 0, .sleepEv, .fireEv 1]).promises 0 =
      some .pending := by
  constructor
  · exact wait_interruption_amended.1 orphanedWorker rfl
  · exact wait_interruption_amended.2.2 orphanedWorker 0 [.fireEv 0, .sleepEv, .fireEv 1]
      (by decide) (by decide)
      (by simp [orphanedWorker, runWorker, stepWorker, freshWorker, sleepCall,
                stopScrapingMsg, updN])

/-! ## Chart download retry ladder (src/unnamed/part_001, handleChartDownload)

handleChartDownload (lines 1296-1643) has two phases: phase 1 on the chart
entry page looks for the PDF button (lines 1549-1619), phase 2 on the PDF
preview page looks for the download link (lines 1329-1547).  Both share
`const maxRetries = 3` (line 1303).  The model below transcribes the
decision taken at each not-found site. -/

/-- `const maxRetries = 3` (line 1303). -/
def maxRetries : Nat := 3

/-- Escalation chosen when a control is missing. -/
inductive ChartFailureAction
  | localPauseRetry (pauseMs : Nat) (nextRetryCount : Nat)
  | fleetStopBroadcast
deriving DecidableEq, Repr

/-- Phase 2, download link not found (lines 1384-1424): at or above the
ceiling, pause this worker 100 s and retry with the counter reset to 0;
below the ceiling, pause this worker 100 s and retry with the counter
incremented.  Both branches call pauseAllThreadsAndRetry, a local pause. -/
def pdfLinkNotFoundAction (currentRetry : Nat) : ChartFailureAction :=
  if currentRetry ≥ maxRetries then .localPauseRetry 100000 0
  else .localPauseRetry 100000 (currentRetry + 1)

/-- Phase 1, PDF button not found (lines 1567-1596): at or above the
ceiling, the worker sets shouldStop, writes stopRequested and sends the
broadcastStop message (lines 1571-1575) — a fleet-wide stop; below the
ceiling, it pauses this worker 100 s and retries with the counter
incremented. -/
def pdfButtonNotFoundAction (currentRetry : Nat) : ChartFailureAction :=
  if currentRetry ≥ maxRetries then .fleetStopBroadcast
  else .localPauseRetry 100000 (currentRetry + 1)

/-- Whether an escalation reaches beyond the single worker. -/
def isFleetWide : ChartFailureAction → Bool
  | .fleetStopBroadcast => true
  | .localPauseRetry _ _ => false

/-- Outcome of one entry into handleChartDownload. -/
inductive ChartStepAction
  | frozenPauseRefresh (pauseMs : Nat)
  | stoppedClearState
  | errorModalFailure
  | clickPdfButton
  | proceedToDownload
  | escalate (a : ChartFailureAction)
deriving DecidableEq, Repr

/-- The branch structure of handleChartDownload (lines 1296-1619): the
frozen-flag check (lines 1305-1326), then for phase 2 the stop check (line
1330), the link search and the not-found ladder; for phase 1 the error-modal
check (lines 1552-1557), the button search and the not-found ladder. -/
def handleChartDownloadStep (frozen shouldStop waitingForPdfPage controlFound
    errorModal : Bool) (currentRetry : Nat) : ChartStepAction :=
  if frozen then .frozenPauseRefresh 100000
  else if waitingForPdfPage then
    if shouldStop then .stoppedClearState
    else if controlFound then .proceedToDownload
    else .escalate (pdfLinkNotFoundAction currentRetry)
  else
    if errorModal then .errorModalFailure
    else if controlFound then .clickPdfButton
    else .escalate (pdfButtonNotFoundAction currentRetry)

/-- C8 counterexample: the claim says exceeding the retry ceiling escalates
only to a longer local pause in both phases and never triggers a fleet-wide
stop.  In phase 1 (PDF button on the chart entry page), once the retry
counter reaches maxRetries = 3, the worker broadcasts a fleet-wide stop. -/
theorem transient_error_escalation_counterexample :
    handleChartDownloadStep false false false false false 3 =
      .escalate .fleetStopBroadcast ∧
    isFleetWide (pdfButtonNotFoundAction 3) = true ∧
    isFleetWide (pdfLinkNotFoundAction 3) = false := by
  refine ⟨rfl, rfl, rfl⟩

/-- C8 amended: on the PDF preview page (download link phase) every
not-found outcome, below or above the maxRetries = 3 ceiling, escalates only
to a 100 second local pause-and-retry of that single worker; on the chart
entry page (PDF button phase) the worker escalates locally with the counter
incremented while the counter is below 3, but on reaching the ceiling it
sends broadcastStop — a fleet-wide stop, not a local pause. -/
theorem transient_error_escalation_amended :
    (∀ r : Nat, isFleetWide (pdfLinkNotFoundAction r) = false) ∧
    (∀ r : Nat, r ≥ maxRetries →
      handleChartDownloadStep false false true false false r =
        .escalate (.localPauseRetry 100000 0)) ∧
    (∀ r : Nat, r < maxRetries →
      handleChartDownloadStep false false true false false r =
        .escalate (.localPauseRetry 100000 (r + 1))) ∧
    (∀ r : Nat, r < maxRetries →
      handleChartDownloadStep false false false false false r =
        .escalate (.localPauseRetry 100000 (r + 1))) ∧
    (∀ r : Nat, r ≥ maxRetries →
      handleChartDownloadStep false false false false false r =
        .escalate .fleetStopBroadcast) := by
  refine ⟨?_, ?_, ?_, ?_, ?_⟩
  · intro r
    unfold pdfLinkNotFoundAction
    split <;> rfl
  · intro r h
    simp [handleChartDownloadStep, pdfLinkNotFoundAction, h]
  · intro r h
    simp [handleChartDownloadStep, pdfLinkNotFoundAction, Nat.not_le.mpr h]
  · intro r h
    simp [handleChartDownloadStep, pdfButtonNotFoundAction, Nat.not_le.mpr h]
  · intro r h
    simp [handleChartDownloadStep, pdfButtonNotFoundAction, h]

theorem transient_error_escalation_amended_witness :
    isFleetWide (pdfLinkNotFoundAction 7) = false ∧
    handleChartDownloadStep false false true false false 5 =
      .escalate (.localPauseRetry 100000 0) ∧
    handleChartDownloadStep false false true false false 2 =
      .escalate (.localPauseRetry 100000 3) ∧
    handleChartDownloadStep false false false false false 0 =
      .escalate (.localPauseRetry 100000 1) ∧
    handleChartDownloadStep false false false false false 4 =
      .escalate .fleetStopBroadcast := by
  refine ⟨transient_error_escalation_amended.1 7,
    transient_error_escalation_amended.2.1 5 (by decide),
    transient_error_escalation_amended.2.2.1 2 (by decide),
    transient_error_escalation_amended.2.2.2.1 0 (by decide),
    transient_error_escalation_amended.2.2.2.2 4 (by decide)⟩

/-! ## Rate-limit handling (src/unnamed/part_001)

detectAndHandleRateLimit (lines 549-578) recognizes the throttle page, sets
the worker's own shouldStop, cancels its own timeouts and calls
pauseAllThreadsAndRetry (lines 640-698).  Despite its name, that function is
documented in-source as a local pause: it never messages the coordinator or
any other worker tab; and since its entry guard (line 643) already sees
shouldStop set by the caller, in the rate-limit path it returns at once.
The model tracks one other worker and every outgoing signal. -/

/-- Observable world for the rate-limit path: the triggering worker's local
flags, one other worker's stop flag, the shared storage flags, and every
message this path sends (runtime messages to the coordinator, tab messages
to other workers, self navigation). -/
structure RLWorld where
  selfStop : Bool
  selfTimeouts : List Nat
  otherStop : Bool
  storageForzen : Bool
  storageStopRequested : Bool
  coordinatorMessages : List String
  tabSignals : List String
  navigatedSelf : Bool
deriving DecidableEq, Repr

/-- pauseAllThreadsAndRetry (lines 640-698).  Entry guard: return when the
clinic name is missing or shouldStop is set (line 643).  Otherwise: set the
worker's own stop flag, cancel its own timers, write the shared forzen flag
(lines 646-652), wait locally, then either refuse to resume on a user stop
(lines 672-675) or clear stopRequested, clear the own stop flag and resume
(lines 677-694) by navigating back to the saved checkpoint or requesting new
work from the coordinator. -/
def pauseAllThreadsAndRetryModel (w : RLWorld) (hasClinic : Bool) (pauseMs : Nat)
    (userStopAfterWait savedStateAfterWait : Bool) : RLWorld :=
  if !hasClinic || w.selfStop then w
  else
    let w1 := { w with selfStop := true, selfTimeouts := [], storageForzen := true }
    if userStopAfterWait then w1
    else
      let w2 := { w1 with storageStopRequested := false, selfStop := false }
      if savedStateAfterWait then { w2 with navigatedSelf := true }
      else { w2 with coordinatorMessages := w2.coordinatorMessages ++ ["requestWork"] }

/-- detectAndHandleRateLimit (lines 549-578): when the page is the throttle
page, set the worker's own stop flag, cancel its own timeouts (lines
562-563), then delegate to pauseAllThreadsAndRetry with a 60 s pause (line
573), whose entry guard sees the stop flag already set.  Returns whether the
throttle page was recognized. -/
def detectAndHandleRateLimitModel (w : RLWorld) (isRateLimitPage hasClinic : Bool)
    (userStopAfterWait savedStateAfterWait : Bool) : RLWorld × Bool :=
  if !isRateLimitPage then (w, false)
  else
    let w1 := { w with selfStop := true, selfTimeouts := [] }
    (pauseAllThreadsAndRetryModel w1 hasClinic 60000 userStopAfterWait savedStateAfterWait,
     true)

/-- A fleet of two workers before any throttle event. -/
def freshRLWorld : RLWorld :=
  { selfStop := false, selfTimeouts := [3, 8], otherStop := false,
    storageForzen := false, storageStopRequested := false,
    coordinatorMessages := [], tabSignals := [], navigatedSelf := false }

/-- C9 counterexample: the claim says a throttle detection transitions the
entire fleet: the triggering worker asks the coordinator to broadcast a
pause and every known worker is signalled to suspend.  In the source the
handler only stops the triggering worker itself: after a detection, the
other worker's stop flag is untouched, no message of any kind was sent to
the coordinator, and no other worker tab was signalled. -/
theorem throttle_fleet_wide_counterexample :
    (detectAndHandleRateLimitModel freshRLWorld true true false true).2 = true ∧
    (detectAndHandleRateLimitModel freshRLWorld true true false true).1.selfStop = true ∧
    (detectAndHandleRateLimitModel freshRLWorld true true false true).1.otherStop = false ∧
    (detectAndHandleRateLimitModel freshRLWorld true true false true).1.coordinatorMessages
      = [] ∧
    (detectAndHandleRateLimitModel freshRLWorld true true false true).1.tabSignals = [] := by
  refine ⟨rfl, rfl, rfl, rfl, rfl⟩

/-- C9 amended: throttle detection is local, not fleet-wide.  On detecting
the rate-limit page the worker sets only its own stop flag and cancels only
its own timeouts; it sends no message to the coordinator and signals no
other worker, whose stop flag is unchanged; the delegated
pauseAllThreadsAndRetry returns right away because its entry guard sees the
stop flag the caller just set, so not even the local 60 s pause-and-resume
runs.  Even when pauseAllThreadsAndRetry does run (from the retry ladder),
it never signals another worker or sends the coordinator anything beyond a
requestWork message for new work. -/
theorem throttle_fleet_wide_amended :
    (∀ (w : RLWorld) (hasClinic userStop savedState : Bool),
      (detectAndHandleRateLimitModel w true hasClinic userStop savedState).1.otherStop
          = w.otherStop ∧
      (detectAndHandleRateLimitModel w true hasClinic userStop savedState).1.tabSignals
          = w.tabSignals ∧
      (detectAndHandleRateLimitModel w true hasClinic userStop
          savedState).1.coordinatorMessages = w.coordinatorMessages ∧
      (detectAndHandleRateLimitModel w true hasClinic userStop savedState).1.selfStop
          = true ∧
      (detectAndHandleRateLimitModel w true hasClinic userStop savedState).1.selfTimeouts
          = []) ∧
    (∀ (w : RLWorld) (hasClinic : Bool) (pauseMs : Nat) (userStop savedState : Bool)
        (m : String),
      m ∈ (pauseAllThreadsAndRetryModel w hasClinic pauseMs userStop
            savedState).coordinatorMessages →
      m ∈ w.coordinatorMessages ∨ m = "requestWork") ∧
    (∀ (w : RLWorld) (hasClinic : Bool) (pauseMs : Nat) (userStop savedState : Bool),
      (pauseAllThreadsAndRetryModel w hasClinic pauseMs userStop savedState).otherStop
          = w.otherStop ∧
      (pauseAllThreadsAndRetryModel w hasClinic pauseMs userStop savedState).tabSignals
          = w.tabSignals) := by
  refine ⟨?_, ?_, ?_⟩
  · intro w hasClinic userStop savedState
    simp [detectAndHandleRateLimitModel, pauseAllThreadsAndRetryModel]
  · intro w hasClinic pauseMs userStop savedState m hm
    unfold pauseAllThreadsAndRetryModel at hm
    by_cases hg : !hasClinic || w.selfStop
    · rw [if_pos hg] at hm
      exact Or.inl hm
    · rw [if_neg hg] at hm
      by_cases hu : userStop
      · simp [hu] at hm
        exact Or.inl hm
      · by_cases hs : savedState
        · simp [hu, hs] at hm
          exact Or.inl hm
        · simp [hu, hs] at hm
          rcases hm with hm | hm
          · exact Or.inl hm
          · exact Or.inr hm
  · intro w hasClinic pauseMs userStop savedState
    unfold pauseAllThreadsAndRetryModel
    by_cases hg : !hasClinic || w.selfStop
    · rw [if_pos hg]
      exact ⟨rfl, rfl⟩
    · rw [if_neg hg]
      by_cases hu : userStop
      · simp [hu]
      · by_cases hs : savedState <;> simp [hu, hs]

theorem throttle_fleet_wide_amended_witness :
    (detectAndHandleRateLimitModel freshRLWorld true true true false).1.otherStop
        = freshRLWorld.otherStop ∧
    ("requestWork" ∈ freshRLWorld.coordinatorMessages ∨
        "requestWork" = "requestWork") := by
  constructor
  · exact (throttle_fleet_wide_amended.1 freshRLWorld true true false).1
  · exact throttle_fleet_wide_amended.2.1 freshRLWorld true 70000 false false "requestWork"
      (by simp [pauseAllThreadsAndRetryModel, freshRLWorld])

end JaneExt
